import Mathlib

/-!
Verification of the GammaChart program (src/main.py).

The program builds XPM-like pixel maps (a uniform-fill builder and a
checkerboard builder), renders them into color grids, computes
gamma-corrected brightness levels, and places 32x32 tiles on a 12x12 grid.

Pure Python string/list code is embedded as computable Lean functions over
`List Char`. Python floats are idealized as real numbers, and the Python
built-in `round` (round-half-to-even) is embedded as `pyround` over ℝ;
those definitions are necessarily noncomputable. Fallible Python code
(dict lookups, list indexing, `int` parsing), which would raise an
exception, is embedded with `Option`.
-/

namespace GammaChart

/-- A Python string is embedded as a list of characters. -/
abbrev Str := List Char

/-- The rendered image: a row-major grid of color strings, as produced by
the pixel loop of `Xpm.create_photo_image` (one color per pixel). -/
abbrev Grid := List (List Str)

/-- Whitespace test used by Python's `str.strip` and `str.split`. -/
def wsp (c : Char) : Bool := c.isWhitespace

/-- Python `str.strip()`: remove leading and trailing whitespace. -/
def strip (l : Str) : Str := ((l.dropWhile wsp).reverse.dropWhile wsp).reverse

/-- Accumulator worker for `splitWs` (the accumulator holds the current
word, reversed). -/
def splitWsAcc (acc : Str) : Str → List Str
  | [] => if acc = [] then [] else [acc.reverse]
  | c :: cs =>
    if wsp c then
      if acc = [] then splitWsAcc [] cs else acc.reverse :: splitWsAcc [] cs
    else splitWsAcc (c :: acc) cs

/-- Python `str.split()` with no argument: split on runs of whitespace,
discarding empty fields. -/
def splitWs (l : Str) : List Str := splitWsAcc [] l

/-- Python `int(s)` on the canonical decimal strings this program produces:
accepts a nonempty all-digit string, otherwise raises (modelled as `none`). -/
def parseNat? (s : Str) : Option Nat :=
  if s ≠ [] ∧ s.all Char.isDigit then
    some (s.foldl (fun a c => a * 10 + (c.toNat - 48)) 0)
  else none

/-- Decimal rendering of a natural number, as Python string interpolation
`f"{n}"` produces for a nonnegative int. -/
def natStr (n : Nat) : Str := Nat.toDigits 10 n

/-- Sequence a list of options (the loops in `create_photo_image` abort on
the first failure, which in Python would be a raised exception). -/
def optTraverse : List (Option α) → Option (List α)
  | [] => some []
  | o :: os => do
    let a ← o
    let rest ← optTraverse os
    pure (a :: rest)

/-- Python dict assignment `m[k] = v`: replace the value at `k` in place if
present, otherwise append the binding. -/
def dinsert (k : α) (v : β) [DecidableEq α] : List (α × β) → List (α × β)
  | [] => [(k, v)]
  | (k2, v2) :: rest => if k2 = k then (k, v) :: rest else (k2, v2) :: dinsert k v rest

/-- The header parse of `Xpm.create_photo_image`:
`width, height, num_colors, chars_per_pixel = map(int, xpm_data[0].strip().split())`.
Any failure (missing line, wrong field count, non-numeric field) raises in
Python, hence `none`. -/
def parseHeader (d : List Str) : Option (Nat × Nat × Nat × Nat) := do
  let line ← d.head?
  match splitWs (strip line) with
  | [a, b, c, e] => do
    let w ← parseNat? a
    let h ← parseNat? b
    let nc ← parseNat? c
    let cpp ← parseNat? e
    pure (w, h, nc, cpp)
  | _ => none

/-- The color-table loop of `Xpm.create_photo_image`, for indices
`i, i+1, ..., i+fuel-1`: for each color line take `line[0]` as the symbol
and the last whitespace-separated field of `line.strip()` as the color,
inserting into the dict. -/
def colorMapFrom (d : List Str) (i fuel : Nat) (m : List (Str × Str)) :
    Option (List (Str × Str)) :=
  match fuel with
  | 0 => some m
  | fuel + 1 => do
    let line ← d[i + 1]?
    let ch ← line.head?
    let color ← (splitWs (strip line)).getLast?
    colorMapFrom d (i + 1) fuel (dinsert [ch] color m)

/-- The full color-table build of `Xpm.create_photo_image`
(`for i in range(num_colors): ...`). -/
def parseColorMap (d : List Str) (nc : Nat) : Option (List (Str × Str)) :=
  colorMapFrom d 0 nc []

/-- `Xpm.create_photo_image` (src/main.py lines 50-87): parse the header,
build the color map, then for each pixel slice
`pixel_row[x*chars_per_pixel : (x+1)*chars_per_pixel]` look its color up.
The result is the grid of colors written into the `PhotoImage`. -/
def create_photo_image (xpm_data : List Str) : Option Grid := do
  let (w, h, nc, cpp) ← parseHeader xpm_data
  let cmap ← parseColorMap xpm_data nc
  optTraverse ((List.range h).map fun y => do
    let row ← xpm_data[y + 1 + nc]?
    optTraverse ((List.range w).map fun x =>
      List.lookup ((row.drop (x * cpp)).take cpp) cmap))

/-- `Xpm.size` (src/main.py line 43). -/
def Xpm.size : Nat := 16

/-- `[a, b]` repeated `n` times and flattened; this is both Python's
`". " * n` (string repetition) and the row-appending loop of
`AlternateXpm.__init__`, which appends two rows per iteration. -/
def altList (a b : α) (n : Nat) : List α := (List.replicate n [a, b]).flatten

/-- `SingleColorXpm.__init__` (src/main.py lines 103-112): header,
one color line keyed by the space character, then `Xpm.size * 2` rows of
`" " * (Xpm.size * 2)`. -/
def SingleColorXpm (red green blue : Str) : List Str :=
  [natStr (Xpm.size * 2) ++ [' '] ++ natStr (Xpm.size * 2) ++ (" 1 1").data,
   ("  c #").data ++ red ++ green ++ blue]
  ++ List.replicate (Xpm.size * 2) (List.replicate (Xpm.size * 2) ' ')

/-- `AlternateXpm.__init__` (src/main.py lines 133-144): header, two color
lines (space and dot symbols), then `Xpm.size` iterations each appending
`". " * Xpm.size` and `" ." * Xpm.size`. -/
def AlternateXpm (red1 green1 blue1 red2 green2 blue2 : Str) : List Str :=
  [natStr (Xpm.size * 2) ++ [' '] ++ natStr (Xpm.size * 2) ++ (" 2 1").data,
   ("  c #").data ++ red1 ++ green1 ++ blue1,
   (". c #").data ++ red2 ++ green2 ++ blue2]
  ++ altList (altList '.' ' ' Xpm.size) (altList ' ' '.' Xpm.size) Xpm.size

/-- The pixel symbol at (row, col) of an XPM data list with `nc` color
lines, as addressed by `create_photo_image`
(`xpm_data[y + 1 + num_colors]`, then the column slice). -/
def xpmPixel (d : List Str) (nc row col : Nat) : Option Char :=
  d[row + 1 + nc]? >>= fun r => r[col]?

/-- Python's built-in `round`: round half to even (banker's rounding),
idealized over ℝ. On a half-integer `2 * round (x / 2)` picks the even
neighbour; elsewhere it agrees with ordinary rounding to nearest. -/
noncomputable def pyround (x : ℝ) : ℤ :=
  if Int.fract x = 1 / 2 then 2 * round (x / 2) else round x

/-- The corrected brightness level computed in `GammaChart.__init__`
(src/main.py lines 191-199): `int(round(pow(x / 255.0, 1.0 / gamma) * 255))`,
with the float arithmetic idealized over ℝ. -/
noncomputable def corrected (gamma : ℝ) (x : Nat) : ℤ :=
  pyround (((x : ℝ) / 255) ^ ((1 : ℝ) / gamma) * 255)

/-- Python's format `f"{v:02x}"`: lowercase hexadecimal, zero-padded to a
minimum width of two (sign included for a negative int). -/
def pyHexFmt (v : ℤ) : Str :=
  if v < 0 then '-' :: (Nat.toDigits 16 (-v).toNat).leftpad 1 '0'
  else (Nat.toDigits 16 v.toNat).leftpad 2 '0'

/-- A corrected level as the chart stores it: the two-digit lowercase hex
string `f"{int(round(pow(x / 255.0, 1.0 / gamma) * 255)):02x}"`. -/
noncomputable def vstr (gamma : ℝ) (x : Nat) : Str := pyHexFmt (corrected gamma x)

/-- The spec's gamma formula, written from its words (spec section 4.2):
corrected level = round((input/255)^(1/gamma) × 255), where `round` is the
rounding the program's language provides. -/
noncomputable def spec_corrected (gamma : ℝ) (x : Nat) : ℤ :=
  pyround (((x : ℝ) / 255) ^ ((1 : ℝ) / gamma) * 255)

/-- The five fixed input levels 0%, 25%, 50%, 75%, 100% of 255
(src/main.py lines 191-199). -/
def levels : List Nat := [0, 63, 127, 191, 255]

/-- The four gamma values the application builds charts for, in the order
of `MainWindow.__init__` (src/main.py lines 391-394). -/
noncomputable def gammas : List ℝ := [2.2, 2.0, 1.8, 1.0]

/-- Lowercase hexadecimal digit test. -/
def isLowerHex (c : Char) : Bool := c.isDigit || ('a' ≤ c && c ≤ 'f')

/-- The `images` dict of `GammaChart.__init__` (src/main.py lines 202-279),
parametrized by the five corrected-level strings; entries in the dict's
insertion order, each value the rendered `PhotoImage` grid. -/
def imagesOf (v000 v025 v050 v075 v100 : Str) : List (String × Option Grid) :=
  [("all_a025", create_photo_image (AlternateXpm v000 v000 v000 v050 v050 v050)),
   ("all_a050", create_photo_image (AlternateXpm v000 v000 v000 v100 v100 v100)),
   ("all_a075", create_photo_image (AlternateXpm v050 v050 v050 v100 v100 v100)),
   ("all_s025", create_photo_image (SingleColorXpm v025 v025 v025)),
   ("all_s050", create_photo_image (SingleColorXpm v050 v050 v050)),
   ("all_s075", create_photo_image (SingleColorXpm v075 v075 v075)),
   ("red_a025", create_photo_image (AlternateXpm v000 v000 v000 v050 v000 v000)),
   ("red_a050", create_photo_image (AlternateXpm v000 v000 v000 v100 v000 v000)),
   ("red_a075", create_photo_image (AlternateXpm v050 v000 v000 v100 v000 v000)),
   ("red_s025", create_photo_image (SingleColorXpm v025 v000 v000)),
   ("red_s050", create_photo_image (SingleColorXpm v050 v000 v000)),
   ("red_s075", create_photo_image (SingleColorXpm v075 v000 v000)),
   ("green_a025", create_photo_image (AlternateXpm v000 v000 v000 v000 v050 v000)),
   ("green_a050", create_photo_image (AlternateXpm v000 v000 v000 v000 v100 v000)),
   ("green_a075", create_photo_image (AlternateXpm v000 v050 v000 v000 v100 v000)),
   ("green_s025", create_photo_image (SingleColorXpm v000 v025 v000)),
   ("green_s050", create_photo_image (SingleColorXpm v000 v050 v000)),
   ("green_s075", create_photo_image (SingleColorXpm v000 v075 v000)),
   ("blue_a025", create_photo_image (AlternateXpm v000 v000 v000 v000 v000 v050)),
   ("blue_a050", create_photo_image (AlternateXpm v000 v000 v000 v000 v000 v100)),
   ("blue_a075", create_photo_image (AlternateXpm v000 v000 v050 v000 v000 v100)),
   ("blue_s025", create_photo_image (SingleColorXpm v000 v000 v025)),
   ("blue_s050", create_photo_image (SingleColorXpm v000 v000 v050)),
   ("blue_s075", create_photo_image (SingleColorXpm v000 v000 v075))]

/-- The `images` dict for a given gamma value. -/
noncomputable def chartImages (gamma : ℝ) : List (String × Option Grid) :=
  imagesOf (vstr gamma 0) (vstr gamma 63) (vstr gamma 127) (vstr gamma 191) (vstr gamma 255)

/-- `xpm_side = Xpm.size * 2` (src/main.py line 177). -/
def xpm_side : Nat := Xpm.size * 2

/-- `image_side = xpm_side * 12` (src/main.py line 178). -/
def image_side : Nat := xpm_side * 12

/-- The `layout` table (src/main.py line 291): (color_name, row_offset,
col_offset) per color section. -/
def layout : List (String × Nat × Nat) :=
  [("all", 0, 0), ("red", 3, 0), ("green", 6, 0), ("blue", 9, 0)]

/-- The `patterns` table (src/main.py lines 299-336): (pattern_name, col,
row) per tile. -/
def patterns : List (String × Nat × Nat) :=
  [("a025", 0, 0), ("s025", 1, 0), ("a025", 2, 0), ("s025", 3, 0),
   ("a050", 4, 0), ("s050", 5, 0), ("a050", 6, 0), ("s050", 7, 0),
   ("a075", 8, 0), ("s075", 9, 0), ("a075", 10, 0), ("s075", 11, 0),
   ("s025", 0, 1), ("a025", 1, 1), ("s025", 2, 1), ("a025", 3, 1),
   ("s050", 4, 1), ("a050", 5, 1), ("s050", 6, 1), ("a050", 7, 1),
   ("s075", 8, 1), ("a075", 9, 1), ("s075", 10, 1), ("a075", 11, 1),
   ("a025", 0, 2), ("s025", 1, 2), ("a025", 2, 2), ("s025", 3, 2),
   ("a050", 4, 2), ("s050", 5, 2), ("a050", 6, 2), ("s050", 7, 2),
   ("a075", 8, 2), ("s075", 9, 2), ("a075", 10, 2), ("s075", 11, 2)]

/-- The placement loop of `GammaChart.__init__` (src/main.py lines
341-351): for each layout section and each pattern, if the key
`f"{color_name}_{pattern_name}"` is in the images dict, call
`create_image(x, y, ...)` with `x = (col + col_offset) * xpm_side` and
`y = (row + row_offset) * xpm_side`. The result lists those calls in
order as (key, x, y). -/
def placementsOf (imgs : List (String × Option Grid)) : List (String × Nat × Nat) :=
  layout.flatMap fun cl =>
    patterns.filterMap fun pt =>
      let key := cl.1 ++ "_" ++ pt.1
      if (imgs.lookup key).isSome then
        some (key, (pt.2.1 + cl.2.2) * xpm_side, (pt.2.2 + cl.2.1) * xpm_side)
      else none

/-- The sequence of image placements of the chart for a given gamma. -/
noncomputable def placements (gamma : ℝ) : List (String × Nat × Nat) :=
  placementsOf (chartImages gamma)

/-- Everything `GammaChart.__init__` produces for a given gamma value: the
five corrected-level strings, the images dict, and the placement calls. -/
noncomputable def chartOutput (gamma : ℝ) :
    (Str × Str × Str × Str × Str) × List (String × Option Grid) × List (String × Nat × Nat) :=
  ((vstr gamma 0, vstr gamma 63, vstr gamma 127, vstr gamma 191, vstr gamma 255),
   chartImages gamma, placements gamma)

/-- The grid a `SingleColorXpm` renders to: every pixel the one color. -/
def constGrid (c : Str) : Grid :=
  List.replicate (Xpm.size * 2) (List.replicate (Xpm.size * 2) c)

/-- The grid an `AlternateXpm` renders to: the second color where
`(x + y)` is even, the first color elsewhere. -/
def checkerGrid (c2 c1 : Str) : Grid :=
  (List.range (Xpm.size * 2)).map fun y =>
    (List.range (Xpm.size * 2)).map fun x => if (x + y) % 2 = 0 then c2 else c1

/-- Numeric value of one lowercase hexadecimal digit. -/
def hexVal (c : Char) : Nat := if c.isDigit then c.toNat - 48 else c.toNat - 87

/-- Numeric value of a hexadecimal byte string such as "7f". -/
def hexByte (s : Str) : Nat := s.foldl (fun a c => a * 16 + hexVal c) 0

/-- `|a + b - 2 * m| ≤ 1` over ℕ: the pair (a, b) averages to m up to
rounding. -/
def near2 (a b m : Nat) : Prop := a + b ≤ 2 * m + 1 ∧ 2 * m ≤ a + b + 1

instance near2.dec (a b m : Nat) : Decidable (near2 a b m) :=
  inferInstanceAs (Decidable (_ ∧ _))

/-- The two-tone/single-tone tile pairs of the chart at gamma = 1.0: the
keys of the paired tiles, the hex channel triples of the two-tone tile's
low and high colors, and of the single-tone tile's color (the corrected
levels at gamma 1 are the inputs 0, 63, 127, 191, 255 themselves). -/
def c4Table :
    List (String × String × (Str × Str × Str) × (Str × Str × Str) × (Str × Str × Str)) :=
  [("all_a025", "all_s025",
    (("00").data, ("00").data, ("00").data),
    (("3f").data, ("3f").data, ("3f").data),
    (("7f").data, ("7f").data, ("7f").data)),
   ("all_a050", "all_s050",
    (("00").data, ("00").data, ("00").data),
    (("7f").data, ("7f").data, ("7f").data),
    (("ff").data, ("ff").data, ("ff").data)),
   ("all_a075", "all_s075",
    (("7f").data, ("7f").data, ("7f").data),
    (("bf").data, ("bf").data, ("bf").data),
    (("ff").data, ("ff").data, ("ff").data)),
   ("red_a025", "red_s025",
    (("00").data, ("00").data, ("00").data),
    (("3f").data, ("00").data, ("00").data),
    (("7f").data, ("00").data, ("00").data)),
   ("red_a050", "red_s050",
    (("00").data, ("00").data, ("00").data),
    (("7f").data, ("00").data, ("00").data),
    (("ff").data, ("00").data, ("00").data)),
   ("red_a075", "red_s075",
    (("7f").data, ("00").data, ("00").data),
    (("bf").data, ("00").data, ("00").data),
    (("ff").data, ("00").data, ("00").data)),
   ("green_a025", "green_s025",
    (("00").data, ("00").data, ("00").data),
    (("00").data, ("3f").data, ("00").data),
    (("00").data, ("7f").data, ("00").data)),
   ("green_a050", "green_s050",
    (("00").data, ("00").data, ("00").data),
    (("00").data, ("7f").data, ("00").data),
    (("00").data, ("ff").data, ("00").data)),
   ("green_a075", "green_s075",
    (("00").data, ("7f").data, ("00").data),
    (("00").data, ("bf").data, ("00").data),
    (("00").data, ("ff").data, ("00").data)),
   ("blue_a025", "blue_s025",
    (("00").data, ("00").data, ("00").data),
    (("00").data, ("00").data, ("3f").data),
    (("00").data, ("00").data, ("7f").data)),
   ("blue_a050", "blue_s050",
    (("00").data, ("00").data, ("00").data),
    (("00").data, ("00").data, ("7f").data),
    (("00").data, ("00").data, ("ff").data)),
   ("blue_a075", "blue_s075",
    (("00").data, ("00").data, ("7f").data),
    (("00").data, ("00").data, ("bf").data),
    (("00").data, ("00").data, ("ff").data))]

/-- The amended relation between a two-tone tile (key `ak`) and its
single-tone partner (key `sk`) at gamma = 1.0: the two-tone tile renders
the checkerboard of its low and high colors, the single-tone tile the
constant grid of its mid color, each channel of (low, high) averages to
the mid channel up to rounding, and the two rendered tiles differ. -/
def c4Pair (ak sk : String) (lo mid hi : Str × Str × Str) : Prop :=
  (chartImages 1).lookup ak =
    some (some (checkerGrid ('#' :: (hi.1 ++ hi.2.1 ++ hi.2.2))
      ('#' :: (lo.1 ++ lo.2.1 ++ lo.2.2)))) ∧
  (chartImages 1).lookup sk =
    some (some (constGrid ('#' :: (mid.1 ++ mid.2.1 ++ mid.2.2)))) ∧
  near2 (hexByte lo.1) (hexByte hi.1) (hexByte mid.1) ∧
  near2 (hexByte lo.2.1) (hexByte hi.2.1) (hexByte mid.2.1) ∧
  near2 (hexByte lo.2.2) (hexByte hi.2.2) (hexByte mid.2.2) ∧
  (chartImages 1).lookup ak ≠ (chartImages 1).lookup sk

/-- The coordinates (x, y) of a placement list. -/
def coordsOf (l : List (String × Nat × Nat)) : List (Nat × Nat) :=
  l.map fun p => (p.2.1, p.2.2)

/-- The concrete sequence of placements the loop performs (computed by
unfolding `placementsOf` on the images dict; proved equal below). -/
def placementTable : List (String × Nat × Nat) :=
  [("all_a025", 0, 0), ("all_s025", 32, 0), ("all_a025", 64, 0),
   ("all_s025", 96, 0), ("all_a050", 128, 0), ("all_s050", 160, 0),
   ("all_a050", 192, 0), ("all_s050", 224, 0), ("all_a075", 256, 0),
   ("all_s075", 288, 0), ("all_a075", 320, 0), ("all_s075", 352, 0),
   ("all_s025", 0, 32), ("all_a025", 32, 32), ("all_s025", 64, 32),
   ("all_a025", 96, 32), ("all_s050", 128, 32), ("all_a050", 160, 32),
   ("all_s050", 192, 32), ("all_a050", 224, 32), ("all_s075", 256, 32),
   ("all_a075", 288, 32), ("all_s075", 320, 32), ("all_a075", 352, 32),
   ("all_a025", 0, 64), ("all_s025", 32, 64), ("all_a025", 64, 64),
   ("all_s025", 96, 64), ("all_a050", 128, 64), ("all_s050", 160, 64),
   ("all_a050", 192, 64), ("all_s050", 224, 64), ("all_a075", 256, 64),
   ("all_s075", 288, 64), ("all_a075", 320, 64), ("all_s075", 352, 64),
   ("red_a025", 0, 96), ("red_s025", 32, 96), ("red_a025", 64, 96),
   ("red_s025", 96, 96), ("red_a050", 128, 96), ("red_s050", 160, 96),
   ("red_a050", 192, 96), ("red_s050", 224, 96), ("red_a075", 256, 96),
   ("red_s075", 288, 96), ("red_a075", 320, 96), ("red_s075", 352, 96),
   ("red_s025", 0, 128), ("red_a025", 32, 128), ("red_s025", 64, 128),
   ("red_a025", 96, 128), ("red_s050", 128, 128), ("red_a050", 160, 128),
   ("red_s050", 192, 128), ("red_a050", 224, 128), ("red_s075", 256, 128),
   ("red_a075", 288, 128), ("red_s075", 320, 128), ("red_a075", 352, 128),
   ("red_a025", 0, 160), ("red_s025", 32, 160), ("red_a025", 64, 160),
   ("red_s025", 96, 160), ("red_a050", 128, 160), ("red_s050", 160, 160),
   ("red_a050", 192, 160), ("red_s050", 224, 160), ("red_a075", 256, 160),
   ("red_s075", 288, 160), ("red_a075", 320, 160), ("red_s075", 352, 160),
   ("green_a025", 0, 192), ("green_s025", 32, 192), ("green_a025", 64, 192),
   ("green_s025", 96, 192), ("green_a050", 128, 192), ("green_s050", 160, 192),
   ("green_a050", 192, 192), ("green_s050", 224, 192), ("green_a075", 256, 192),
   ("green_s075", 288, 192), ("green_a075", 320, 192), ("green_s075", 352, 192),
   ("green_s025", 0, 224), ("green_a025", 32, 224), ("green_s025", 64, 224),
   ("green_a025", 96, 224), ("green_s050", 128, 224), ("green_a050", 160, 224),
   ("green_s050", 192, 224), ("green_a050", 224, 224), ("green_s075", 256, 224),
   ("green_a075", 288, 224), ("green_s075", 320, 224), ("green_a075", 352, 224),
   ("green_a025", 0, 256), ("green_s025", 32, 256), ("green_a025", 64, 256),
   ("green_s025", 96, 256), ("green_a050", 128, 256), ("green_s050", 160, 256),
   ("green_a050", 192, 256), ("green_s050", 224, 256), ("green_a075", 256, 256),
   ("green_s075", 288, 256), ("green_a075", 320, 256), ("green_s075", 352, 256),
   ("blue_a025", 0, 288), ("blue_s025", 32, 288), ("blue_a025", 64, 288),
   ("blue_s025", 96, 288), ("blue_a050", 128, 288), ("blue_s050", 160, 288),
   ("blue_a050", 192, 288), ("blue_s050", 224, 288), ("blue_a075", 256, 288),
   ("blue_s075", 288, 288), ("blue_a075", 320, 288), ("blue_s075", 352, 288),
   ("blue_s025", 0, 320), ("blue_a025", 32, 320), ("blue_s025", 64, 320),
   ("blue_a025", 96, 320), ("blue_s050", 128, 320), ("blue_a050", 160, 320),
   ("blue_s050", 192, 320), ("blue_a050", 224, 320), ("blue_s075", 256, 320),
   ("blue_a075", 288, 320), ("blue_s075", 320, 320), ("blue_a075", 352, 320),
   ("blue_a025", 0, 352), ("blue_s025", 32, 352), ("blue_a025", 64, 352),
   ("blue_s025", 96, 352), ("blue_a050", 128, 352), ("blue_s050", 160, 352),
   ("blue_a050", 192, 352), ("blue_s050", 224, 352), ("blue_a075", 256, 352),
   ("blue_s075", 288, 352), ("blue_a075", 320, 352), ("blue_s075", 352, 352)]

/-! ## Lemmas about `pyround` and `corrected` -/

theorem pyround_natCast (n : Nat) : pyround (n : ℝ) = n := by
  unfold pyround
  rw [Int.fract_natCast, if_neg (by norm_num), round_natCast]

theorem pyround_intCast (n : ℤ) : pyround (n : ℝ) = n := by
  unfold pyround
  rw [Int.fract_intCast, if_neg (by norm_num), round_intCast]

theorem pyround_half_cases (x : ℝ) (h : Int.fract x = 1 / 2) :
    pyround x = ⌊x⌋ ∨ pyround x = ⌊x⌋ + 1 := by
  have hx : x = (⌊x⌋ : ℝ) + 1 / 2 := by
    have h2 := Int.floor_add_fract x
    rw [h] at h2; linarith
  unfold pyround
  rw [if_pos h]
  rcases Int.even_or_odd ⌊x⌋ with ⟨m, hm⟩ | ⟨m, hm⟩
  · left
    have hx2 : x / 2 + 1 / 2 = (m : ℝ) + 3 / 4 := by
      rw [hx, hm]; push_cast; ring
    rw [round_eq, hx2]
    have hf : ⌊(m : ℝ) + 3 / 4⌋ = m := by
      rw [add_comm, Int.floor_add_int]
      norm_num
    rw [hf, hm]; ring
  · right
    have hx2 : x / 2 + 1 / 2 = (m : ℝ) + 5 / 4 := by
      rw [hx, hm]; push_cast; ring
    rw [round_eq, hx2]
    have hf : ⌊(m : ℝ) + 5 / 4⌋ = m + 1 := by
      rw [add_comm, Int.floor_add_int]
      norm_num
      omega
    rw [hf, hm]; ring

theorem pyround_range (x : ℝ) (h0 : 0 ≤ x) (h255 : x ≤ 255) :
    0 ≤ pyround x ∧ pyround x ≤ 255 := by
  by_cases h : Int.fract x = 1 / 2
  · have hx : x = (⌊x⌋ : ℝ) + 1 / 2 := by
      have h2 := Int.floor_add_fract x
      rw [h] at h2; linarith
    have hfl0 : 0 ≤ ⌊x⌋ := Int.floor_nonneg.mpr h0
    have hfl255 : ⌊x⌋ < 255 := by
      have hc : (⌊x⌋ : ℝ) < 255 := by linarith
      exact_mod_cast hc
    rcases pyround_half_cases x h with he | he <;> rw [he] <;> omega
  · have hr : pyround x = round x := by unfold pyround; rw [if_neg h]
    rw [hr, round_eq]
    constructor
    · exact Int.floor_nonneg.mpr (by linarith)
    · have hlt : ⌊x + 1 / 2⌋ < 256 := by
        rw [Int.floor_lt]; push_cast; linarith
      omega

theorem corrected_one (x : Nat) : corrected 1 x = x := by
  unfold corrected
  rw [show (1 : ℝ) / 1 = 1 by norm_num, Real.rpow_one,
    div_mul_cancel₀ _ (by norm_num : (255 : ℝ) ≠ 0)]
  exact pyround_natCast x

theorem corrected_zero (g : ℝ) (hg : 0 < g) : corrected g 0 = 0 := by
  unfold corrected
  rw [show ((0 : ℕ) : ℝ) = 0 by norm_num, zero_div,
    Real.zero_rpow (ne_of_gt (one_div_pos.mpr hg)), zero_mul]
  simpa using pyround_intCast 0

theorem corrected_255 (g : ℝ) (_hg : 0 < g) : corrected g 255 = 255 := by
  unfold corrected
  rw [show ((255 : ℕ) : ℝ) / 255 = 1 by norm_num, Real.one_rpow, one_mul]
  simpa using pyround_intCast 255

theorem corrected_range (g : ℝ) (hg : 0 < g) (x : Nat) (hx : x ≤ 255) :
    0 ≤ corrected g x ∧ corrected g x ≤ 255 := by
  unfold corrected
  apply pyround_range
  · positivity
  · have hle : ((x : ℝ) / 255) ≤ 1 := by
      rw [div_le_one (by norm_num : (0 : ℝ) < 255)]
      exact_mod_cast hx
    have h2 : ((x : ℝ) / 255) ^ ((1 : ℝ) / g) ≤ 1 :=
      Real.rpow_le_one (by positivity) hle (le_of_lt (one_div_pos.mpr hg))
    linarith

set_option maxRecDepth 4000 in
theorem pyHexFmt_byte (n : ℤ) (h0 : 0 ≤ n) (h1 : n ≤ 255) :
    (pyHexFmt n).length = 2 ∧ (pyHexFmt n).all isLowerHex = true := by
  have key : ∀ m : ℕ, m < 256 →
      ((Nat.toDigits 16 m).leftpad 2 '0').length = 2 ∧
      ((Nat.toDigits 16 m).leftpad 2 '0').all isLowerHex = true := by decide
  unfold pyHexFmt
  rw [if_neg (by omega : ¬ n < 0)]
  exact key n.toNat (by omega)

theorem vstr_one (x : Nat) : vstr 1 x = pyHexFmt (x : ℤ) := by
  unfold vstr; rw [corrected_one]

theorem vstr_one_0 : vstr 1 0 = ("00").data := by rw [vstr_one 0]; decide

theorem vstr_one_63 : vstr 1 63 = ("3f").data := by rw [vstr_one 63]; decide

theorem vstr_one_127 : vstr 1 127 = ("7f").data := by rw [vstr_one 127]; decide

theorem vstr_one_191 : vstr 1 191 = ("bf").data := by rw [vstr_one 191]; decide

theorem vstr_one_255 : vstr 1 255 = ("ff").data := by rw [vstr_one 255]; decide

theorem chartImages_one :
    chartImages 1 =
      imagesOf ("00").data ("3f").data ("7f").data ("bf").data ("ff").data := by
  unfold chartImages
  rw [vstr_one_0, vstr_one_63, vstr_one_127, vstr_one_191, vstr_one_255]

theorem gammas_pos : ∀ g ∈ gammas, (0 : ℝ) < g := by
  intro g hg
  simp [gammas] at hg
  rcases hg with h | h | h | h <;> rw [h] <;> norm_num

theorem levels_le : ∀ x ∈ levels, x ≤ 255 := by decide

/-! ## Lemmas about `strip` and `splitWs` on the builders' color lines -/

theorem wsp_space : wsp ' ' = true := by decide

theorem wsp_c : wsp 'c' = false := by decide

theorem wsp_hash : wsp '#' = false := by decide

theorem wsp_dot : wsp '.' = false := by decide

theorem dropWhile_wsp_append (u v : Str) (hu : u ≠ [])
    (h : ∀ c ∈ u, wsp c = false) : (u ++ v).dropWhile wsp = u ++ v := by
  cases u with
  | nil => exact absurd rfl hu
  | cons a t =>
    rw [List.cons_append, List.dropWhile_cons, h a (List.mem_cons_self a t)]
    simp

theorem nonws_tail (s : Str) (h : ∀ c ∈ s, wsp c = false) :
    ∀ c ∈ s.reverse ++ ['#'], wsp c = false := by
  intro c hc
  rcases List.mem_append.mp hc with hc | hc
  · exact h c (List.mem_reverse.mp hc)
  · rw [List.mem_singleton.mp hc]; exact wsp_hash

theorem strip_sp_line (s : Str) (h : ∀ c ∈ s, wsp c = false) :
    strip (' ' :: ' ' :: 'c' :: ' ' :: '#' :: s) = 'c' :: ' ' :: '#' :: s := by
  unfold strip
  have h1 : (' ' :: ' ' :: 'c' :: ' ' :: '#' :: s).dropWhile wsp =
      'c' :: ' ' :: '#' :: s := by
    simp [List.dropWhile_cons, wsp_space, wsp_c]
  rw [h1,
    show ('c' :: ' ' :: '#' :: s).reverse = (s.reverse ++ ['#']) ++ [' ', 'c'] by simp,
    dropWhile_wsp_append _ _ (by simp) (nonws_tail s h)]
  simp

theorem strip_dot_line (s : Str) (h : ∀ c ∈ s, wsp c = false) :
    strip ('.' :: ' ' :: 'c' :: ' ' :: '#' :: s) =
      '.' :: ' ' :: 'c' :: ' ' :: '#' :: s := by
  unfold strip
  have h1 : ('.' :: ' ' :: 'c' :: ' ' :: '#' :: s).dropWhile wsp =
      '.' :: ' ' :: 'c' :: ' ' :: '#' :: s := by
    simp [List.dropWhile_cons, wsp_dot]
  rw [h1,
    show ('.' :: ' ' :: 'c' :: ' ' :: '#' :: s).reverse =
      (s.reverse ++ ['#']) ++ [' ', 'c', ' ', '.'] by simp,
    dropWhile_wsp_append _ _ (by simp) (nonws_tail s h)]
  simp

theorem splitWsAcc_nonws (s : Str) : ∀ acc : Str, acc ≠ [] →
    (∀ c ∈ s, wsp c = false) → splitWsAcc acc s = [acc.reverse ++ s] := by
  induction s with
  | nil =>
    intro acc hacc _
    simp [splitWsAcc, hacc]
  | cons a t ih =>
    intro acc hacc h
    have ha : wsp a = false := h a (List.mem_cons_self a t)
    simp only [splitWsAcc, ha, Bool.false_eq_true, if_false]
    rw [ih (a :: acc) (by simp) fun c hc => h c (List.mem_cons_of_mem a hc)]
    simp

theorem splitWs_chash (s : Str) (h : ∀ c ∈ s, wsp c = false) :
    splitWs ('c' :: ' ' :: '#' :: s) = [['c'], '#' :: s] := by
  unfold splitWs
  simp only [splitWsAcc, wsp_c, wsp_space, wsp_hash, Bool.false_eq_true, if_false,
    if_true, List.cons_ne_nil, List.reverse_cons, List.reverse_nil, List.nil_append]
  rw [splitWsAcc_nonws s ['#'] (by simp) h]
  simp

theorem splitWs_dot_line (s : Str) (h : ∀ c ∈ s, wsp c = false) :
    splitWs ('.' :: ' ' :: 'c' :: ' ' :: '#' :: s) = [['.'], ['c'], '#' :: s] := by
  unfold splitWs
  simp only [splitWsAcc, wsp_c, wsp_space, wsp_hash, wsp_dot, Bool.false_eq_true,
    if_false, if_true, List.cons_ne_nil, List.reverse_cons, List.reverse_nil,
    List.nil_append]
  rw [splitWsAcc_nonws s ['#'] (by simp) h]
  simp

/-! ## Lemmas about `altList` and the builders' data lists -/

theorem altList_succ (a b : α) (n : Nat) :
    altList a b (n + 1) = a :: b :: altList a b n := by
  simp [altList, List.replicate_succ]

theorem altList_getElem? (a b : α) (n i : Nat) (h : i < 2 * n) :
    (altList a b n)[i]? = some (if i % 2 = 0 then a else b) := by
  induction n generalizing i with
  | zero => omega
  | succ m ih =>
    rw [altList_succ]
    match i with
    | 0 => simp
    | 1 => simp
    | k + 2 =>
      rw [show k + 2 = k + 1 + 1 from rfl, List.getElem?_cons_succ,
        List.getElem?_cons_succ, ih k (by omega),
        show (k + 1 + 1) % 2 = k % 2 by omega]

theorem altList_length (a b : α) (n : Nat) : (altList a b n).length = 2 * n := by
  induction n with
  | zero => rfl
  | succ m ih => rw [altList_succ]; simp [ih]; omega

theorem mem_altList (a b x : α) (n : Nat) (h : x ∈ altList a b n) :
    x = a ∨ x = b := by
  induction n with
  | zero => simp [altList] at h
  | succ m ih =>
    rw [altList_succ] at h
    rcases List.mem_cons.mp h with h | h
    · exact Or.inl h
    · rcases List.mem_cons.mp h with h | h
      · exact Or.inr h
      · exact ih h

theorem parseHeader_single (r g b : Str) :
    parseHeader (SingleColorXpm r g b) = some (32, 32, 1, 1) := rfl

theorem parseHeader_alt (r1 g1 b1 r2 g2 b2 : Str) :
    parseHeader (AlternateXpm r1 g1 b1 r2 g2 b2) = some (32, 32, 2, 1) := rfl

theorem parseColorMap_single (r g b : Str) (h : ∀ c ∈ r ++ g ++ b, wsp c = false) :
    parseColorMap (SingleColorXpm r g b) 1 =
      some [([' '], '#' :: (r ++ g ++ b))] := by
  have hline : (SingleColorXpm r g b)[0 + 1]? =
      some (' ' :: ' ' :: 'c' :: ' ' :: '#' :: (r ++ g ++ b)) := rfl
  unfold parseColorMap colorMapFrom
  rw [hline]
  simp only [Option.pure_def, Option.bind_eq_bind, Option.some_bind, List.head?_cons]
  rw [strip_sp_line _ h, splitWs_chash _ h]
  rfl

theorem parseColorMap_alt (r1 g1 b1 r2 g2 b2 : Str)
    (h1 : ∀ c ∈ r1 ++ g1 ++ b1, wsp c = false)
    (h2 : ∀ c ∈ r2 ++ g2 ++ b2, wsp c = false) :
    parseColorMap (AlternateXpm r1 g1 b1 r2 g2 b2) 2 =
      some [([' '], '#' :: (r1 ++ g1 ++ b1)), (['.'], '#' :: (r2 ++ g2 ++ b2))] := by
  have hline1 : (AlternateXpm r1 g1 b1 r2 g2 b2)[0 + 1]? =
      some (' ' :: ' ' :: 'c' :: ' ' :: '#' :: (r1 ++ g1 ++ b1)) := rfl
  have hline2 : (AlternateXpm r1 g1 b1 r2 g2 b2)[0 + 1 + 1]? =
      some ('.' :: ' ' :: 'c' :: ' ' :: '#' :: (r2 ++ g2 ++ b2)) := rfl
  unfold parseColorMap colorMapFrom
  rw [hline1]
  simp only [Option.pure_def, Option.bind_eq_bind, Option.some_bind, List.head?_cons]
  rw [strip_sp_line _ h1, splitWs_chash _ h1]
  simp only [List.getLast?_cons_cons, List.getLast?_singleton, Option.some_bind]
  unfold colorMapFrom
  rw [hline2]
  simp only [Option.pure_def, Option.bind_eq_bind, Option.some_bind, List.head?_cons]
  rw [strip_dot_line _ h2, splitWs_dot_line _ h2]
  rfl

theorem getElem?_cons2 (x y : α) (l : List α) (i : Nat) :
    (x :: y :: l)[i + 1 + 1]? = l[i]? := by
  rw [List.getElem?_cons_succ, List.getElem?_cons_succ]

theorem getElem?_cons3 (x y z : α) (l : List α) (i : Nat) :
    (x :: y :: z :: l)[i + 1 + 2]? = l[i]? := by
  rw [show i + 1 + 2 = i + 1 + 1 + 1 from rfl, List.getElem?_cons_succ,
    List.getElem?_cons_succ, List.getElem?_cons_succ]

theorem single_row (r g b : Str) (row : Nat) (h : row < 32) :
    (SingleColorXpm r g b)[row + 1 + 1]? = some (List.replicate 32 ' ') := by
  rw [show (SingleColorXpm r g b)[row + 1 + 1]? =
      (List.replicate 32 (List.replicate 32 ' '))[row]? from getElem?_cons2 _ _ _ row]
  rw [List.getElem?_replicate, if_pos h]

theorem alt_row (r1 g1 b1 r2 g2 b2 : Str) (row : Nat) (h : row < 32) :
    (AlternateXpm r1 g1 b1 r2 g2 b2)[row + 1 + 2]? =
      some (if row % 2 = 0 then altList '.' ' ' 16 else altList ' ' '.' 16) := by
  rw [show (AlternateXpm r1 g1 b1 r2 g2 b2)[row + 1 + 2]? =
      (altList (altList '.' ' ' 16) (altList ' ' '.' 16) 16)[row]? from
    getElem?_cons3 _ _ _ _ row]
  exact altList_getElem? _ _ 16 row (by omega)

theorem slice_one (l : List Char) (x : Nat) (c : Char) (h : l[x]? = some c) :
    (l.drop x).take 1 = [c] := by
  induction l generalizing x with
  | nil => simp at h
  | cons a t ih =>
    cases x with
    | zero =>
      simp only [List.getElem?_cons_zero, Option.some.injEq] at h
      rw [h]; rfl
    | succ k =>
      rw [List.getElem?_cons_succ] at h
      exact ih k h

theorem optTraverse_map (l : List α) (f : α → Option β) (g : α → β)
    (h : ∀ a ∈ l, f a = some (g a)) : optTraverse (l.map f) = some (l.map g) := by
  induction l with
  | nil => rfl
  | cons a t ih =>
    simp only [List.map_cons, optTraverse]
    rw [h a (List.mem_cons_self a t),
      ih fun x hx => h x (List.mem_cons_of_mem a hx)]
    rfl

/-! ## Rendering the two builders -/

theorem lookup_space_single (col : Str) :
    List.lookup [' '] [([' '], col)] = some col := rfl

theorem cpi_single (r g b : Str) (h : ∀ c ∈ r ++ g ++ b, wsp c = false) :
    create_photo_image (SingleColorXpm r g b) =
      some (constGrid ('#' :: (r ++ g ++ b))) := by
  unfold create_photo_image
  rw [parseHeader_single]
  simp only [Option.pure_def, Option.bind_eq_bind, Option.some_bind]
  rw [parseColorMap_single r g b h]
  simp only [Option.pure_def, Option.bind_eq_bind, Option.some_bind]
  have hrow : ∀ y ∈ List.range 32,
      ((SingleColorXpm r g b)[y + 1 + 1]?.bind fun a =>
        optTraverse
          (List.map (fun x => List.lookup (List.take 1 (List.drop (x * 1) a))
            [([' '], '#' :: (r ++ g ++ b))]) (List.range 32)))
      = some (List.replicate 32 ('#' :: (r ++ g ++ b))) := by
    intro y hy
    rw [single_row r g b y (List.mem_range.mp hy), Option.some_bind]
    have hx : ∀ x ∈ List.range 32,
        List.lookup (List.take 1 (List.drop (x * 1) (List.replicate 32 ' ')))
          [([' '], '#' :: (r ++ g ++ b))] = some ('#' :: (r ++ g ++ b)) := by
      intro x hxm
      rw [mul_one, slice_one (List.replicate 32 ' ') x ' '
        (by rw [List.getElem?_replicate, if_pos (List.mem_range.mp hxm)])]
      rfl
    rw [optTraverse_map (List.range 32) _ (fun _ => '#' :: (r ++ g ++ b)) hx]
    rw [show (List.range 32).map (fun _ => '#' :: (r ++ g ++ b)) =
      List.replicate 32 ('#' :: (r ++ g ++ b)) by
        rw [List.map_const', List.length_range]]
  rw [optTraverse_map (List.range 32) _
    (fun _ => List.replicate 32 ('#' :: (r ++ g ++ b))) hrow]
  rw [show (List.range 32).map (fun _ => List.replicate 32 ('#' :: (r ++ g ++ b))) =
    List.replicate 32 (List.replicate 32 ('#' :: (r ++ g ++ b))) by
      rw [List.map_const', List.length_range]]
  rfl


theorem lookup_alt_space (c1 c2 : Str) :
    List.lookup [' '] [([' '], c1), (['.'], c2)] = some c1 := rfl

theorem lookup_alt_dot (c1 c2 : Str) :
    List.lookup ['.'] [([' '], c1), (['.'], c2)] = some c2 := rfl

theorem cpi_alternate (r1 g1 b1 r2 g2 b2 : Str)
    (h1 : ∀ c ∈ r1 ++ g1 ++ b1, wsp c = false)
    (h2 : ∀ c ∈ r2 ++ g2 ++ b2, wsp c = false) :
    create_photo_image (AlternateXpm r1 g1 b1 r2 g2 b2) =
      some (checkerGrid ('#' :: (r2 ++ g2 ++ b2)) ('#' :: (r1 ++ g1 ++ b1))) := by
  unfold create_photo_image
  rw [parseHeader_alt]
  simp only [Option.pure_def, Option.bind_eq_bind, Option.some_bind]
  rw [parseColorMap_alt r1 g1 b1 r2 g2 b2 h1 h2]
  simp only [Option.pure_def, Option.bind_eq_bind, Option.some_bind]
  have hrow : ∀ y ∈ List.range 32,
      ((AlternateXpm r1 g1 b1 r2 g2 b2)[y + 1 + 2]?.bind fun a =>
        optTraverse
          (List.map (fun x => List.lookup (List.take 1 (List.drop (x * 1) a))
            [([' '], '#' :: (r1 ++ g1 ++ b1)), (['.'], '#' :: (r2 ++ g2 ++ b2))])
            (List.range 32)))
      = some ((List.range 32).map fun x =>
          if (x + y) % 2 = 0 then '#' :: (r2 ++ g2 ++ b2) else '#' :: (r1 ++ g1 ++ b1)) := by
    intro y hy
    rw [alt_row r1 g1 b1 r2 g2 b2 y (List.mem_range.mp hy), Option.some_bind]
    by_cases hp : y % 2 = 0
    · rw [if_pos hp]
      have hx : ∀ x ∈ List.range 32,
          List.lookup (List.take 1 (List.drop (x * 1) (altList '.' ' ' 16)))
            [([' '], '#' :: (r1 ++ g1 ++ b1)), (['.'], '#' :: (r2 ++ g2 ++ b2))]
          = some (if (x + y) % 2 = 0 then '#' :: (r2 ++ g2 ++ b2)
              else '#' :: (r1 ++ g1 ++ b1)) := by
        intro x hxm
        have hxlt := List.mem_range.mp hxm
        have hchar : (altList '.' ' ' 16)[x]? =
            some (if x % 2 = 0 then '.' else ' ') :=
          altList_getElem? '.' ' ' 16 x (by omega)
        rw [mul_one]
        by_cases hx2 : x % 2 = 0
        · rw [slice_one _ x '.' (by rw [hchar, if_pos hx2]),
            show (x + y) % 2 = 0 by omega, if_pos rfl]
          exact lookup_alt_dot _ _
        · rw [slice_one _ x ' ' (by rw [hchar, if_neg hx2]),
            show (x + y) % 2 = 1 by omega]
          rw [if_neg (by omega)]
          exact lookup_alt_space _ _
      rw [optTraverse_map (List.range 32) _
        (fun x => if (x + y) % 2 = 0 then '#' :: (r2 ++ g2 ++ b2)
          else '#' :: (r1 ++ g1 ++ b1)) hx]
    · rw [if_neg hp]
      have hx : ∀ x ∈ List.range 32,
          List.lookup (List.take 1 (List.drop (x * 1) (altList ' ' '.' 16)))
            [([' '], '#' :: (r1 ++ g1 ++ b1)), (['.'], '#' :: (r2 ++ g2 ++ b2))]
          = some (if (x + y) % 2 = 0 then '#' :: (r2 ++ g2 ++ b2)
              else '#' :: (r1 ++ g1 ++ b1)) := by
        intro x hxm
        have hxlt := List.mem_range.mp hxm
        have hchar : (altList ' ' '.' 16)[x]? =
            some (if x % 2 = 0 then ' ' else '.') :=
          altList_getElem? ' ' '.' 16 x (by omega)
        rw [mul_one]
        by_cases hx2 : x % 2 = 0
        · rw [slice_one _ x ' ' (by rw [hchar, if_pos hx2]),
            show (x + y) % 2 = 1 by omega]
          rw [if_neg (by omega)]
          exact lookup_alt_space _ _
        · rw [slice_one _ x '.' (by rw [hchar, if_neg hx2]),
            show (x + y) % 2 = 0 by omega, if_pos rfl]
          exact lookup_alt_dot _ _
      rw [optTraverse_map (List.range 32) _
        (fun x => if (x + y) % 2 = 0 then '#' :: (r2 ++ g2 ++ b2)
          else '#' :: (r1 ++ g1 ++ b1)) hx]
  rw [optTraverse_map (List.range 32) _
    (fun y => (List.range 32).map fun x =>
      if (x + y) % 2 = 0 then '#' :: (r2 ++ g2 ++ b2) else '#' :: (r1 ++ g1 ++ b1))
    hrow]
  rfl


theorem placementsOf_imagesOf (a b c d e : Str) :
    placementsOf (imagesOf a b c d e) = placementTable := rfl

theorem lookup_all_a025 (a b c d e : Str) :
    List.lookup "all_a025" (imagesOf a b c d e) =
      some (create_photo_image (AlternateXpm a a a c c c)) := rfl

theorem lookup_all_a050 (a b c d e : Str) :
    List.lookup "all_a050" (imagesOf a b c d e) =
      some (create_photo_image (AlternateXpm a a a e e e)) := rfl

theorem lookup_all_a075 (a b c d e : Str) :
    List.lookup "all_a075" (imagesOf a b c d e) =
      some (create_photo_image (AlternateXpm c c c e e e)) := rfl

theorem lookup_all_s025 (a b c d e : Str) :
    List.lookup "all_s025" (imagesOf a b c d e) =
      some (create_photo_image (SingleColorXpm b b b)) := rfl

theorem lookup_all_s050 (a b c d e : Str) :
    List.lookup "all_s050" (imagesOf a b c d e) =
      some (create_photo_image (SingleColorXpm c c c)) := rfl

theorem lookup_all_s075 (a b c d e : Str) :
    List.lookup "all_s075" (imagesOf a b c d e) =
      some (create_photo_image (SingleColorXpm d d d)) := rfl

theorem lookup_red_a025 (a b c d e : Str) :
    List.lookup "red_a025" (imagesOf a b c d e) =
      some (create_photo_image (AlternateXpm a a a c a a)) := rfl

theorem lookup_red_a050 (a b c d e : Str) :
    List.lookup "red_a050" (imagesOf a b c d e) =
      some (create_photo_image (AlternateXpm a a a e a a)) := rfl

theorem lookup_red_a075 (a b c d e : Str) :
    List.lookup "red_a075" (imagesOf a b c d e) =
      some (create_photo_image (AlternateXpm c a a e a a)) := rfl

theorem lookup_red_s025 (a b c d e : Str) :
    List.lookup "red_s025" (imagesOf a b c d e) =
      some (create_photo_image (SingleColorXpm b a a)) := rfl

theorem lookup_red_s050 (a b c d e : Str) :
    List.lookup "red_s050" (imagesOf a b c d e) =
      some (create_photo_image (SingleColorXpm c a a)) := rfl

theorem lookup_red_s075 (a b c d e : Str) :
    List.lookup "red_s075" (imagesOf a b c d e) =
      some (create_photo_image (SingleColorXpm d a a)) := rfl

theorem lookup_green_a025 (a b c d e : Str) :
    List.lookup "green_a025" (imagesOf a b c d e) =
      some (create_photo_image (AlternateXpm a a a a c a)) := rfl

theorem lookup_green_a050 (a b c d e : Str) :
    List.lookup "green_a050" (imagesOf a b c d e) =
      some (create_photo_image (AlternateXpm a a a a e a)) := rfl

theorem lookup_green_a075 (a b c d e : Str) :
    List.lookup "green_a075" (imagesOf a b c d e) =
      some (create_photo_image (AlternateXpm a c a a e a)) := rfl

theorem lookup_green_s025 (a b c d e : Str) :
    List.lookup "green_s025" (imagesOf a b c d e) =
      some (create_photo_image (SingleColorXpm a b a)) := rfl

theorem lookup_green_s050 (a b c d e : Str) :
    List.lookup "green_s050" (imagesOf a b c d e) =
      some (create_photo_image (SingleColorXpm a c a)) := rfl

theorem lookup_green_s075 (a b c d e : Str) :
    List.lookup "green_s075" (imagesOf a b c d e) =
      some (create_photo_image (SingleColorXpm a d a)) := rfl

theorem lookup_blue_a025 (a b c d e : Str) :
    List.lookup "blue_a025" (imagesOf a b c d e) =
      some (create_photo_image (AlternateXpm a a a a a c)) := rfl

theorem lookup_blue_a050 (a b c d e : Str) :
    List.lookup "blue_a050" (imagesOf a b c d e) =
      some (create_photo_image (AlternateXpm a a a a a e)) := rfl

theorem lookup_blue_a075 (a b c d e : Str) :
    List.lookup "blue_a075" (imagesOf a b c d e) =
      some (create_photo_image (AlternateXpm a a c a a e)) := rfl

theorem lookup_blue_s025 (a b c d e : Str) :
    List.lookup "blue_s025" (imagesOf a b c d e) =
      some (create_photo_image (SingleColorXpm a a b)) := rfl

theorem lookup_blue_s050 (a b c d e : Str) :
    List.lookup "blue_s050" (imagesOf a b c d e) =
      some (create_photo_image (SingleColorXpm a a c)) := rfl

theorem lookup_blue_s075 (a b c d e : Str) :
    List.lookup "blue_s075" (imagesOf a b c d e) =
      some (create_photo_image (SingleColorXpm a a d)) := rfl

set_option maxRecDepth 4000 in
/-- C4 (amended): at gamma = 1.0, for each channel and brightness level,
the two-tone tile does not render the same image as its single-tone
partner; instead it renders a checkerboard of its two colors while the
single-tone tile renders a constant color, and per channel the two-tone
pair of levels sums to twice the single-tone level up to a rounding
difference of 1. -/
theorem C4_tiles : ∀ e ∈ c4Table,
    c4Pair e.1 e.2.1 e.2.2.1 e.2.2.2.1 e.2.2.2.2 := by
  intro e he
  fin_cases he
  · dsimp only [c4Pair]
    rw [chartImages_one]
    refine ⟨?_, ?_, by decide, by decide, by decide, ?_⟩
    · simp only [lookup_all_a025, cpi_alternate ("00").data ("00").data ("00").data ("7f").data ("7f").data ("7f").data (by decide) (by decide)]
    · simp only [lookup_all_s025, cpi_single ("3f").data ("3f").data ("3f").data (by decide)]
    · simp only [lookup_all_a025, lookup_all_s025, cpi_alternate ("00").data ("00").data ("00").data ("7f").data ("7f").data ("7f").data (by decide) (by decide), cpi_single ("3f").data ("3f").data ("3f").data (by decide)]
      decide
  · dsimp only [c4Pair]
    rw [chartImages_one]
    refine ⟨?_, ?_, by decide, by decide, by decide, ?_⟩
    · simp only [lookup_all_a050, cpi_alternate ("00").data ("00").data ("00").data ("ff").data ("ff").data ("ff").data (by decide) (by decide)]
    · simp only [lookup_all_s050, cpi_single ("7f").data ("7f").data ("7f").data (by decide)]
    · simp only [lookup_all_a050, lookup_all_s050, cpi_alternate ("00").data ("00").data ("00").data ("ff").data ("ff").data ("ff").data (by decide) (by decide), cpi_single ("7f").data ("7f").data ("7f").data (by decide)]
      decide
  · dsimp only [c4Pair]
    rw [chartImages_one]
    refine ⟨?_, ?_, by decide, by decide, by decide, ?_⟩
    · simp only [lookup_all_a075, cpi_alternate ("7f").data ("7f").data ("7f").data ("ff").data ("ff").data ("ff").data (by decide) (by decide)]
    · simp only [lookup_all_s075, cpi_single ("bf").data ("bf").data ("bf").data (by decide)]
    · simp only [lookup_all_a075, lookup_all_s075, cpi_alternate ("7f").data ("7f").data ("7f").data ("ff").data ("ff").data ("ff").data (by decide) (by decide), cpi_single ("bf").data ("bf").data ("bf").data (by decide)]
      decide
  · dsimp only [c4Pair]
    rw [chartImages_one]
    refine ⟨?_, ?_, by decide, by decide, by decide, ?_⟩
    · simp only [lookup_red_a025, cpi_alternate ("00").data ("00").data ("00").data ("7f").data ("00").data ("00").data (by decide) (by decide)]
    · simp only [lookup_red_s025, cpi_single ("3f").data ("00").data ("00").data (by decide)]
    · simp only [lookup_red_a025, lookup_red_s025, cpi_alternate ("00").data ("00").data ("00").data ("7f").data ("00").data ("00").data (by decide) (by decide), cpi_single ("3f").data ("00").data ("00").data (by decide)]
      decide
  · dsimp only [c4Pair]
    rw [chartImages_one]
    refine ⟨?_, ?_, by decide, by decide, by decide, ?_⟩
    · simp only [lookup_red_a050, cpi_alternate ("00").data ("00").data ("00").data ("ff").data ("00").data ("00").data (by decide) (by decide)]
    · simp only [lookup_red_s050, cpi_single ("7f").data ("00").data ("00").data (by decide)]
    · simp only [lookup_red_a050, lookup_red_s050, cpi_alternate ("00").data ("00").data ("00").data ("ff").data ("00").data ("00").data (by decide) (by decide), cpi_single ("7f").data ("00").data ("00").data (by decide)]
      decide
  · dsimp only [c4Pair]
    rw [chartImages_one]
    refine ⟨?_, ?_, by decide, by decide, by decide, ?_⟩
    · simp only [lookup_red_a075, cpi_alternate ("7f").data ("00").data ("00").data ("ff").data ("00").data ("00").data (by decide) (by decide)]
    · simp only [lookup_red_s075, cpi_single ("bf").data ("00").data ("00").data (by decide)]
    · simp only [lookup_red_a075, lookup_red_s075, cpi_alternate ("7f").data ("00").data ("00").data ("ff").data ("00").data ("00").data (by decide) (by decide), cpi_single ("bf").data ("00").data ("00").data (by decide)]
      decide
  · dsimp only [c4Pair]
    rw [chartImages_one]
    refine ⟨?_, ?_, by decide, by decide, by decide, ?_⟩
    · simp only [lookup_green_a025, cpi_alternate ("00").data ("00").data ("00").data ("00").data ("7f").data ("00").data (by decide) (by decide)]
    · simp only [lookup_green_s025, cpi_single ("00").data ("3f").data ("00").data (by decide)]
    · simp only [lookup_green_a025, lookup_green_s025, cpi_alternate ("00").data ("00").data ("00").data ("00").data ("7f").data ("00").data (by decide) (by decide), cpi_single ("00").data ("3f").data ("00").data (by decide)]
      decide
  · dsimp only [c4Pair]
    rw [chartImages_one]
    refine ⟨?_, ?_, by decide, by decide, by decide, ?_⟩
    · simp only [lookup_green_a050, cpi_alternate ("00").data ("00").data ("00").data ("00").data ("ff").data ("00").data (by decide) (by decide)]
    · simp only [lookup_green_s050, cpi_single ("00").data ("7f").data ("00").data (by decide)]
    · simp only [lookup_green_a050, lookup_green_s050, cpi_alternate ("00").data ("00").data ("00").data ("00").data ("ff").data ("00").data (by decide) (by decide), cpi_single ("00").data ("7f").data ("00").data (by decide)]
      decide
  · dsimp only [c4Pair]
    rw [chartImages_one]
    refine ⟨?_, ?_, by decide, by decide, by decide, ?_⟩
    · simp only [lookup_green_a075, cpi_alternate ("00").data ("7f").data ("00").data ("00").data ("ff").data ("00").data (by decide) (by decide)]
    · simp only [lookup_green_s075, cpi_single ("00").data ("bf").data ("00").data (by decide)]
    · simp only [lookup_green_a075, lookup_green_s075, cpi_alternate ("00").data ("7f").data ("00").data ("00").data ("ff").data ("00").data (by decide) (by decide), cpi_single ("00").data ("bf").data ("00").data (by decide)]
      decide
  · dsimp only [c4Pair]
    rw [chartImages_one]
    refine ⟨?_, ?_, by decide, by decide, by decide, ?_⟩
    · simp only [lookup_blue_a025, cpi_alternate ("00").data ("00").data ("00").data ("00").data ("00").data ("7f").data (by decide) (by decide)]
    · simp only [lookup_blue_s025, cpi_single ("00").data ("00").data ("3f").data (by decide)]
    · simp only [lookup_blue_a025, lookup_blue_s025, cpi_alternate ("00").data ("00").data ("00").data ("00").data ("00").data ("7f").data (by decide) (by decide), cpi_single ("00").data ("00").data ("3f").data (by decide)]
      decide
  · dsimp only [c4Pair]
    rw [chartImages_one]
    refine ⟨?_, ?_, by decide, by decide, by decide, ?_⟩
    · simp only [lookup_blue_a050, cpi_alternate ("00").data ("00").data ("00").data ("00").data ("00").data ("ff").data (by decide) (by decide)]
    · simp only [lookup_blue_s050, cpi_single ("00").data ("00").data ("7f").data (by decide)]
    · simp only [lookup_blue_a050, lookup_blue_s050, cpi_alternate ("00").data ("00").data ("00").data ("00").data ("00").data ("ff").data (by decide) (by decide), cpi_single ("00").data ("00").data ("7f").data (by decide)]
      decide
  · dsimp only [c4Pair]
    rw [chartImages_one]
    refine ⟨?_, ?_, by decide, by decide, by decide, ?_⟩
    · simp only [lookup_blue_a075, cpi_alternate ("00").data ("00").data ("7f").data ("00").data ("00").data ("ff").data (by decide) (by decide)]
    · simp only [lookup_blue_s075, cpi_single ("00").data ("00").data ("bf").data (by decide)]
    · simp only [lookup_blue_a075, lookup_blue_s075, cpi_alternate ("00").data ("00").data ("7f").data ("00").data ("00").data ("ff").data (by decide) (by decide), cpi_single ("00").data ("00").data ("bf").data (by decide)]
      decide

/-! ## The claims -/

set_option maxRecDepth 40000 in
/-- C1 (amended): for every gamma value, constructing a chart produces
exactly 144 tile placements (4 color sections x 36 patterns) on the 12x12
grid of 32x32-pixel tiles (384x384 pixels total), with no two placements
at the same coordinate and no grid cell left empty. -/
theorem C1_grid_placements (g : ℝ) :
    (placements g).length = 144 ∧
    (coordsOf (placements g)).Nodup ∧
    (∀ i : Nat, i < 12 → ∀ j : Nat, j < 12 →
      (i * 32, j * 32) ∈ coordsOf (placements g)) ∧
    xpm_side = 32 ∧ image_side = 384 := by
  have hpl : placements g = placementTable := placementsOf_imagesOf _ _ _ _ _
  rw [hpl]
  refine ⟨by decide, by decide, by decide, rfl, rfl⟩

set_option maxRecDepth 40000 in
/-- C1 as stated is false: the placement loop runs 4 layout sections times
36 patterns and places 144 tiles, not 96. -/
theorem C1_counterexample :
    (placements 1).length = 144 ∧ (placements 1).length ≠ 96 := by
  have hpl : placements 1 = placementTable := placementsOf_imagesOf _ _ _ _ _
  rw [hpl]
  decide

/-- Witness for C1: the theorem applied at gamma 2.2 and cell (0, 11). -/
theorem C1_witness :
    ((0 : Nat) * 32, (11 : Nat) * 32) ∈ coordsOf (placements 2.2) :=
  (C1_grid_placements 2.2).2.2.1 0 (by decide) 11 (by decide)

/-- C2: for every positive gamma and every input level in
{0, 63, 127, 191, 255}, the corrected level the chart computes equals
round((input/255)^(1/gamma) * 255) as the spec's formula states, and is
formatted as a two-digit lowercase hexadecimal string. -/
theorem C2_formula_and_format (g : ℝ) (hg : 0 < g) (x : Nat) (hx : x ∈ levels) :
    vstr g x = pyHexFmt (spec_corrected g x) ∧
    (vstr g x).length = 2 ∧ (vstr g x).all isLowerHex = true := by
  obtain ⟨h0, h1⟩ := corrected_range g hg x (levels_le x hx)
  exact ⟨rfl, (pyHexFmt_byte _ h0 h1).1, (pyHexFmt_byte _ h0 h1).2⟩

/-- Witness for C2: gamma 1 and input 63. -/
theorem C2_witness :
    vstr 1 63 = pyHexFmt (spec_corrected 1 63) ∧
    (vstr 1 63).length = 2 ∧ (vstr 1 63).all isLowerHex = true :=
  C2_formula_and_format 1 one_pos 63 (by decide)

/-- C3 (amended): in every checkerboard pixel-map the pixel at (row, col)
uses the SECOND symbol (the dot, from the second color line) exactly when
row + col is even, and the first symbol (the space) otherwise. -/
theorem C3_checkerboard (r1 g1 b1 r2 g2 b2 : Str) (row col : Nat)
    (hrow : row < 32) (hcol : col < 32) :
    xpmPixel (AlternateXpm r1 g1 b1 r2 g2 b2) 2 row col =
      some (if (row + col) % 2 = 0 then '.' else ' ') := by
  unfold xpmPixel
  rw [alt_row r1 g1 b1 r2 g2 b2 row hrow]
  simp only [Option.bind_eq_bind, Option.some_bind]
  by_cases hp : row % 2 = 0
  · rw [if_pos hp, altList_getElem? '.' ' ' 16 col (by omega)]
    by_cases hc : col % 2 = 0
    · rw [if_pos hc, if_pos (by omega : (row + col) % 2 = 0)]
    · rw [if_neg hc, if_neg (by omega : ¬ (row + col) % 2 = 0)]
  · rw [if_neg hp, altList_getElem? ' ' '.' 16 col (by omega)]
    by_cases hc : col % 2 = 0
    · rw [if_pos hc, if_neg (by omega : ¬ (row + col) % 2 = 0)]
    · rw [if_neg hc, if_pos (by omega : (row + col) % 2 = 0)]

/-- C3 as stated is false: at (row, col) = (0, 0), where row + col is
even, the pixel is the dot '.' while the first color line's symbol is the
space ' '. -/
theorem C3_counterexample :
    xpmPixel (AlternateXpm ("00").data ("00").data ("00").data
      ("7f").data ("7f").data ("7f").data) 2 0 0 = some '.' ∧
    ((AlternateXpm ("00").data ("00").data ("00").data
      ("7f").data ("7f").data ("7f").data)[1]?.bind List.head? = some ' ') ∧
    (0 + 0) % 2 = 0 ∧ ('.' : Char) ≠ ' ' := by decide

/-- Witness for C3: row 1, column 2 of a concrete checkerboard. -/
theorem C3_witness :
    xpmPixel (AlternateXpm ("00").data ("00").data ("00").data
      ("7f").data ("7f").data ("7f").data) 2 1 2 =
      some (if (1 + 2) % 2 = 0 then '.' else ' ') :=
  C3_checkerboard _ _ _ _ _ _ 1 2 (by decide) (by decide)

set_option maxRecDepth 4000 in
/-- C4 as stated is false: at gamma = 1.0 the 25% two-tone "all" tile and
the 25% single-tone "all" tile render different images (a checkerboard of
#000000 and #7f7f7f versus a constant #3f3f3f). -/
theorem C4_counterexample :
    (chartImages 1).lookup "all_a025" ≠ (chartImages 1).lookup "all_s025" := by
  rw [chartImages_one]
  simp only [lookup_all_a025, lookup_all_s025,
    cpi_alternate ("00").data ("00").data ("00").data
      ("7f").data ("7f").data ("7f").data (by decide) (by decide),
    cpi_single ("3f").data ("3f").data ("3f").data (by decide)]
  decide

/-- Witness for C4: the first table entry, the 25% "all" pair. -/
theorem C4_witness :
    c4Pair "all_a025" "all_s025"
      (("00").data, ("00").data, ("00").data)
      (("3f").data, ("3f").data, ("3f").data)
      (("7f").data, ("7f").data, ("7f").data) :=
  C4_tiles ("all_a025", "all_s025",
    (("00").data, ("00").data, ("00").data),
    (("3f").data, ("3f").data, ("3f").data),
    (("7f").data, ("7f").data, ("7f").data)) (by decide)

/-- C5: for both builders, the header's declared width and height equal
the actual pixel row count and every row's length, the declared color
count equals the color-table size, and image construction succeeds (the
symbol-to-color lookup is total), producing a 32x32 grid of colors. -/
theorem C5_xpm_invariants (r g b r1 g1 b1 r2 g2 b2 : Str)
    (h : ∀ c ∈ r ++ g ++ b, wsp c = false)
    (h1 : ∀ c ∈ r1 ++ g1 ++ b1, wsp c = false)
    (h2 : ∀ c ∈ r2 ++ g2 ++ b2, wsp c = false) :
    (parseHeader (SingleColorXpm r g b) = some (32, 32, 1, 1) ∧
     ((SingleColorXpm r g b).drop 2).length = 32 ∧
     (∀ row ∈ (SingleColorXpm r g b).drop 2, row.length = 32) ∧
     (∃ m, parseColorMap (SingleColorXpm r g b) 1 = some m ∧ m.length = 1) ∧
     (∃ grid, create_photo_image (SingleColorXpm r g b) = some grid ∧
       grid.length = 32 ∧ ∀ grow ∈ grid, grow.length = 32)) ∧
    (parseHeader (AlternateXpm r1 g1 b1 r2 g2 b2) = some (32, 32, 2, 1) ∧
     ((AlternateXpm r1 g1 b1 r2 g2 b2).drop 3).length = 32 ∧
     (∀ row ∈ (AlternateXpm r1 g1 b1 r2 g2 b2).drop 3, row.length = 32) ∧
     (∃ m, parseColorMap (AlternateXpm r1 g1 b1 r2 g2 b2) 2 = some m ∧
       m.length = 2) ∧
     (∃ grid, create_photo_image (AlternateXpm r1 g1 b1 r2 g2 b2) = some grid ∧
       grid.length = 32 ∧ ∀ grow ∈ grid, grow.length = 32)) := by
  constructor
  · refine ⟨parseHeader_single r g b, rfl, ?_,
      ⟨_, parseColorMap_single r g b h, rfl⟩,
      ⟨_, cpi_single r g b h, rfl, ?_⟩⟩
    · intro row hrow
      rw [show (SingleColorXpm r g b).drop 2 =
        List.replicate 32 (List.replicate 32 ' ') from rfl] at hrow
      rw [List.eq_of_mem_replicate hrow]
      rfl
    · intro grow hg
      rw [List.eq_of_mem_replicate
        (show grow ∈ List.replicate 32 (List.replicate 32 ('#' :: (r ++ g ++ b)))
          from hg)]
      rfl
  · refine ⟨parseHeader_alt r1 g1 b1 r2 g2 b2, ?_, ?_,
      ⟨_, parseColorMap_alt r1 g1 b1 r2 g2 b2 h1 h2, rfl⟩,
      ⟨_, cpi_alternate r1 g1 b1 r2 g2 b2 h1 h2, rfl, ?_⟩⟩
    · rw [show (AlternateXpm r1 g1 b1 r2 g2 b2).drop 3 =
        altList (altList '.' ' ' 16) (altList ' ' '.' 16) 16 from rfl,
        altList_length]
    · intro row hrow
      rw [show (AlternateXpm r1 g1 b1 r2 g2 b2).drop 3 =
        altList (altList '.' ' ' 16) (altList ' ' '.' 16) 16 from rfl] at hrow
      rcases mem_altList _ _ _ _ hrow with hr | hr <;> rw [hr, altList_length]
    · intro grow hg
      rcases List.mem_map.mp
        (show grow ∈ (List.range 32).map fun y => (List.range 32).map fun x =>
          if (x + y) % 2 = 0 then '#' :: (r2 ++ g2 ++ b2)
          else '#' :: (r1 ++ g1 ++ b1) from hg) with ⟨y, _, hy⟩
      rw [← hy]
      rfl

/-- Witness for C5: concrete hex colors for both builders. -/
theorem C5_witness :
    (parseHeader (SingleColorXpm ("3f").data ("00").data ("ff").data) =
       some (32, 32, 1, 1) ∧
     ((SingleColorXpm ("3f").data ("00").data ("ff").data).drop 2).length = 32 ∧
     (∀ row ∈ (SingleColorXpm ("3f").data ("00").data ("ff").data).drop 2,
       row.length = 32) ∧
     (∃ m, parseColorMap (SingleColorXpm ("3f").data ("00").data ("ff").data) 1 =
       some m ∧ m.length = 1) ∧
     (∃ grid, create_photo_image (SingleColorXpm ("3f").data ("00").data ("ff").data) =
       some grid ∧ grid.length = 32 ∧ ∀ grow ∈ grid, grow.length = 32)) ∧
    (parseHeader (AlternateXpm ("00").data ("00").data ("00").data
        ("7f").data ("7f").data ("7f").data) = some (32, 32, 2, 1) ∧
     ((AlternateXpm ("00").data ("00").data ("00").data
        ("7f").data ("7f").data ("7f").data).drop 3).length = 32 ∧
     (∀ row ∈ (AlternateXpm ("00").data ("00").data ("00").data
        ("7f").data ("7f").data ("7f").data).drop 3, row.length = 32) ∧
     (∃ m, parseColorMap (AlternateXpm ("00").data ("00").data ("00").data
        ("7f").data ("7f").data ("7f").data) 2 = some m ∧ m.length = 2) ∧
     (∃ grid, create_photo_image (AlternateXpm ("00").data ("00").data ("00").data
        ("7f").data ("7f").data ("7f").data) = some grid ∧
       grid.length = 32 ∧ ∀ grow ∈ grid, grow.length = 32)) :=
  C5_xpm_invariants ("3f").data ("00").data ("ff").data
    ("00").data ("00").data ("00").data ("7f").data ("7f").data ("7f").data
    (by decide) (by decide) (by decide)

/-- C6: for gamma = 1.0 and every input level in {0, 63, 127, 191, 255},
the corrected level equals the input level exactly. -/
theorem C6_gamma_one_identity (x : Nat) (_hx : x ∈ levels) :
    corrected 1 x = x :=
  corrected_one x

/-- Witness for C6: input 63. -/
theorem C6_witness : corrected 1 63 = 63 :=
  C6_gamma_one_identity 63 (by decide)

/-- C7: for every gamma in {2.2, 2.0, 1.8, 1.0} and every input level in
{0, 63, 127, 191, 255}, the corrected level lies in [0, 255], so the
two-digit hex formatting never overflows (the string has length 2). -/
theorem C7_corrected_in_range (g : ℝ) (hg : g ∈ gammas) (x : Nat)
    (hx : x ∈ levels) :
    0 ≤ corrected g x ∧ corrected g x ≤ 255 ∧ (vstr g x).length = 2 := by
  obtain ⟨h0, h1⟩ := corrected_range g (gammas_pos g hg) x (levels_le x hx)
  exact ⟨h0, h1, (pyHexFmt_byte _ h0 h1).1⟩

/-- Witness for C7: gamma 2.2 and input 127. -/
theorem C7_witness :
    0 ≤ corrected 2.2 127 ∧ corrected 2.2 127 ≤ 255 ∧
    (vstr 2.2 127).length = 2 :=
  C7_corrected_in_range 2.2 (List.Mem.head _) 127 (by decide)

/-- C8: every pixel of a uniform-fill pixel-map is the space symbol, and
the color table maps that symbol to the one configured color. -/
theorem C8_uniform_fill (r g b : Str) (h : ∀ c ∈ r ++ g ++ b, wsp c = false)
    (row col : Nat) (hrow : row < 32) (hcol : col < 32) :
    xpmPixel (SingleColorXpm r g b) 1 row col = some ' ' ∧
    parseColorMap (SingleColorXpm r g b) 1 =
      some [([' '], '#' :: (r ++ g ++ b))] := by
  refine ⟨?_, parseColorMap_single r g b h⟩
  unfold xpmPixel
  rw [single_row r g b row hrow]
  simp only [Option.bind_eq_bind, Option.some_bind]
  rw [List.getElem?_replicate, if_pos hcol]

/-- Witness for C8: concrete colors, pixel (5, 7). -/
theorem C8_witness :
    xpmPixel (SingleColorXpm ("3f").data ("00").data ("ff").data) 1 5 7 =
      some ' ' ∧
    parseColorMap (SingleColorXpm ("3f").data ("00").data ("ff").data) 1 =
      some [([' '], '#' :: (("3f").data ++ ("00").data ++ ("ff").data))] :=
  C8_uniform_fill ("3f").data ("00").data ("ff").data (by decide) 5 7
    (by decide) (by decide)

/-- C9: chart construction is deterministic; its output (corrected level
strings, images dict, placements) depends only on the gamma value, so two
runs with the same gamma produce identical results. -/
theorem C9_deterministic (g1 g2 : ℝ) (h : g1 = g2) :
    chartOutput g1 = chartOutput g2 := by
  rw [h]

/-- Witness for C9: two runs at gamma 2.2. -/
theorem C9_witness : chartOutput 2.2 = chartOutput 2.2 :=
  C9_deterministic 2.2 2.2 rfl

/-- C10: for every gamma in {2.2, 2.0, 1.8, 1.0}, the corrected 0% level
is "00" and the corrected 100% level is "ff": black and white are fixed
points of the gamma correction. -/
theorem C10_endpoints (g : ℝ) (hg : g ∈ gammas) :
    vstr g 0 = ("00").data ∧ vstr g 255 = ("ff").data := by
  have hgpos := gammas_pos g hg
  constructor
  · show pyHexFmt (corrected g 0) = _
    rw [corrected_zero g hgpos]
    decide
  · show pyHexFmt (corrected g 255) = _
    rw [corrected_255 g hgpos]
    decide

/-- Witness for C10: gamma 2.2. -/
theorem C10_witness : vstr 2.2 0 = ("00").data ∧ vstr 2.2 255 = ("ff").data :=
  C10_endpoints 2.2 (List.Mem.head _)

end GammaChart
